import Mathlib

/-!
Shallow embedding of `src/calculatePopoverLayout.ts` from
react-native-safe-popover.

JavaScript numbers are modelled as rationals (`ℚ`): every arithmetic
operation the source performs (addition, subtraction, multiplication,
halving, `Math.min`, `Math.max`) is exact on the inputs of interest.
`PopoverLayout|null` becomes `Option PopoverLayout`; the directional
calculators, as in the source, always return `some`.  JavaScript
`Array.prototype.sort` (stable since ES2019) is modelled by a stable
insertion sort driven by the source's comparator.
-/

namespace SafePopover

/-- `EdgeInsets` from react-native-safe-area-context: the resolved safe-area
margins. -/
structure EdgeInsets where
  top : ℚ
  left : ℚ
  bottom : ℚ
  right : ℚ
deriving DecidableEq, Repr

/-- A rectangle `{x, y, width, height}` with top-left origin. -/
structure Rect where
  x : ℚ
  y : ℚ
  width : ℚ
  height : ℚ
deriving DecidableEq, Repr

/-- A point `{x, y}`. -/
structure Point where
  x : ℚ
  y : ℚ
deriving DecidableEq, Repr

/-- The input enum `PopoverArrowDirection` from `arrowDirection.ts`
(`up`, `down`, `left`, `right`). -/
inductive PopoverArrowDirection where
  | up
  | down
  | left
  | right
deriving DecidableEq, Repr

/-- The output direction union `"up"|"down"|"left"|"right"|"none"` of
`PopoverLayout.arrow.direction`. -/
inductive ArrowDirection where
  | up
  | down
  | left
  | right
  | none
deriving DecidableEq, Repr

/-- The four corner radii of the popover box. -/
structure BorderRadii where
  borderTopRightRadius : ℚ
  borderTopLeftRadius : ℚ
  borderBottomLeftRadius : ℚ
  borderBottomRightRadius : ℚ
deriving DecidableEq, Repr

/-- The `arrow` part of a `PopoverLayout`. -/
structure ArrowLayout where
  direction : ArrowDirection
  x : ℚ
  y : ℚ
  width : ℚ
  height : ℚ
deriving DecidableEq, Repr

/-- The `popover` part of a `PopoverLayout`. -/
structure PopoverBox where
  x : ℚ
  y : ℚ
  width : ℚ
  height : ℚ
  borderRadii : BorderRadii
deriving DecidableEq, Repr

/-- The output record `PopoverLayout`. -/
structure PopoverLayout where
  arrow : ArrowLayout
  popover : PopoverBox
deriving DecidableEq, Repr

/-- `CalculatePopoverLayoutParams`: the input record of
`calculatePopoverLayout`. -/
structure CalculatePopoverLayoutParams where
  permittedArrowDirections : List PopoverArrowDirection
  safeAreaEdgeInsets : EdgeInsets
  sourceRect : Rect
  backdropHeight : ℚ
  backdropWidth : ℚ
  preferredHeight : ℚ
  preferredWidth : ℚ
  arrowBreadth : ℚ
  arrowLength : ℚ
  cornerWidth : ℚ
  borderRadius : ℚ
deriving DecidableEq, Repr

/-- `CalculatePopoverLayoutForArrowDirectionParams`: the record handed to
each directional calculator, holding the clipped source rect and its
midpoint. -/
structure CalculatePopoverLayoutForArrowDirectionParams where
  sourceRectClippedMidpoint : Point
  backdropWidth : ℚ
  safeAreaEdgeInsets : EdgeInsets
  sourceRectClipped : Rect
  backdropHeight : ℚ
  preferredHeight : ℚ
  preferredWidth : ℚ
  arrowBreadth : ℚ
  arrowLength : ℚ
  cornerWidth : ℚ
  borderRadius : ℚ
deriving DecidableEq, Repr

/-- Lines 90–99 of the source: clamp the source rect's origin point into the
safe area on each axis independently. -/
def sourcePointClipped (p : CalculatePopoverLayoutParams) : Point :=
  { x := min
      (max p.sourceRect.x p.safeAreaEdgeInsets.left)
      (max (p.backdropWidth - p.safeAreaEdgeInsets.right) p.safeAreaEdgeInsets.left)
    y := min
      (max p.sourceRect.y p.safeAreaEdgeInsets.top)
      (max (p.backdropHeight - p.safeAreaEdgeInsets.bottom) p.safeAreaEdgeInsets.top) }

/-- Lines 101–118 of the source: the clipped source rectangle.  Width and
height are reduced by the origin shift and clamped into
`[0, backdrop span minus both insets]`. -/
def sourceRectClipped (p : CalculatePopoverLayoutParams) : Rect :=
  let sp := sourcePointClipped p
  { x := sp.x
    y := sp.y
    width := max
      (min
        (p.sourceRect.width - |sp.x - p.sourceRect.x|)
        (p.backdropWidth - p.safeAreaEdgeInsets.left - p.safeAreaEdgeInsets.right))
      0
    height := max
      (min
        (p.sourceRect.height - |sp.y - p.sourceRect.y|)
        (p.backdropHeight - p.safeAreaEdgeInsets.top - p.safeAreaEdgeInsets.bottom))
      0 }

/-- Lines 122–125: midpoint of the clipped source rectangle. -/
def sourceRectClippedMidpoint (p : CalculatePopoverLayoutParams) : Point :=
  let sp := sourcePointClipped p
  let sr := sourceRectClipped p
  { x := sp.x + sr.width / 2
    y := sp.y + sr.height / 2 }

/-- Lines 127–139: assemble the per-direction parameter record. -/
def mkDirectionParams (p : CalculatePopoverLayoutParams) :
    CalculatePopoverLayoutForArrowDirectionParams :=
  { sourceRectClippedMidpoint := sourceRectClippedMidpoint p
    backdropWidth := p.backdropWidth
    safeAreaEdgeInsets := p.safeAreaEdgeInsets
    sourceRectClipped := sourceRectClipped p
    backdropHeight := p.backdropHeight
    preferredHeight := p.preferredHeight
    preferredWidth := p.preferredWidth
    arrowBreadth := p.arrowBreadth
    arrowLength := p.arrowLength
    cornerWidth := p.cornerWidth
    borderRadius := p.borderRadius }

/-- `calculatePopoverLayoutForArrowDirectionDown` (lines 205–289): popover
above the source, arrow pointing down at it. -/
def calculatePopoverLayoutForArrowDirectionDown
    (p : CalculatePopoverLayoutForArrowDirectionParams) : Option PopoverLayout :=
  let arrowPoint : Point :=
    { x := max
        (min
          (p.sourceRectClippedMidpoint.x - p.arrowBreadth / 2)
          (p.backdropWidth - p.safeAreaEdgeInsets.right - p.arrowBreadth))
        p.safeAreaEdgeInsets.left
      y := max
        (min
          (p.sourceRectClipped.y - p.arrowLength)
          (p.backdropHeight - p.safeAreaEdgeInsets.bottom - p.arrowLength))
        p.safeAreaEdgeInsets.top }
  let preferredX : ℚ := p.sourceRectClippedMidpoint.x - p.preferredWidth / 2
  let preferredY : ℚ := arrowPoint.y - p.preferredHeight
  let popoverOrigin : Point :=
    { x := max
        (if preferredX + p.preferredWidth ≤ p.backdropWidth - p.safeAreaEdgeInsets.right then
            preferredX
          else
            p.backdropWidth - p.safeAreaEdgeInsets.right - p.preferredWidth)
        p.safeAreaEdgeInsets.left
      y := max preferredY p.safeAreaEdgeInsets.top }
  let popoverWidth : ℚ := min
    (p.backdropWidth - popoverOrigin.x - p.safeAreaEdgeInsets.right)
    p.preferredWidth
  let popoverHeight : ℚ := min
    (arrowPoint.y - p.safeAreaEdgeInsets.top)
    p.preferredHeight
  let borderBottomLeftRadius : ℚ :=
    if arrowPoint.x ≤ popoverOrigin.x + p.cornerWidth then 0 else p.borderRadius
  let borderBottomRightRadius : ℚ :=
    if arrowPoint.x ≥ popoverOrigin.x + popoverWidth - p.cornerWidth then 0 else p.borderRadius
  some
    { arrow :=
        { direction := ArrowDirection.down
          x := arrowPoint.x
          y := arrowPoint.y
          width := p.arrowBreadth
          height := p.arrowLength }
      popover :=
        { x := popoverOrigin.x
          y := popoverOrigin.y
          width := popoverWidth
          height := popoverHeight
          borderRadii :=
            { borderTopRightRadius := p.borderRadius
              borderTopLeftRadius := p.borderRadius
              borderBottomLeftRadius := borderBottomLeftRadius
              borderBottomRightRadius := borderBottomRightRadius } } }

/-- `calculatePopoverLayoutForArrowDirectionUp` (lines 291–375): popover
below the source, arrow pointing up at it. -/
def calculatePopoverLayoutForArrowDirectionUp
    (p : CalculatePopoverLayoutForArrowDirectionParams) : Option PopoverLayout :=
  let arrowPoint : Point :=
    { x := max
        (min
          (p.sourceRectClippedMidpoint.x - p.arrowBreadth / 2)
          (p.backdropWidth - p.safeAreaEdgeInsets.right - p.arrowBreadth))
        p.safeAreaEdgeInsets.left
      y := max
        (min
          (p.sourceRectClipped.y + p.sourceRectClipped.height)
          (p.backdropHeight - p.safeAreaEdgeInsets.bottom - p.arrowLength))
        p.safeAreaEdgeInsets.top }
  let preferredX : ℚ := p.sourceRectClippedMidpoint.x - p.preferredWidth / 2
  let preferredY : ℚ := arrowPoint.y + p.arrowLength
  let popoverOrigin : Point :=
    { x := max
        (if preferredX + p.preferredWidth ≤ p.backdropWidth - p.safeAreaEdgeInsets.right then
            preferredX
          else
            p.backdropWidth - p.safeAreaEdgeInsets.right - p.preferredWidth)
        p.safeAreaEdgeInsets.left
      y := min preferredY (p.backdropHeight - p.safeAreaEdgeInsets.bottom) }
  let popoverWidth : ℚ := min
    (p.backdropWidth - popoverOrigin.x - p.safeAreaEdgeInsets.right)
    p.preferredWidth
  let popoverHeight : ℚ := min
    ((p.backdropHeight - p.safeAreaEdgeInsets.bottom) - preferredY)
    p.preferredHeight
  let borderTopLeftRadius : ℚ :=
    if arrowPoint.x ≤ popoverOrigin.x + p.cornerWidth then 0 else p.borderRadius
  let borderTopRightRadius : ℚ :=
    if arrowPoint.x ≥ popoverOrigin.x + popoverWidth - p.cornerWidth then 0 else p.borderRadius
  some
    { arrow :=
        { direction := ArrowDirection.up
          x := arrowPoint.x
          y := arrowPoint.y
          width := p.arrowBreadth
          height := p.arrowLength }
      popover :=
        { x := popoverOrigin.x
          y := popoverOrigin.y
          width := popoverWidth
          height := popoverHeight
          borderRadii :=
            { borderTopRightRadius := borderTopRightRadius
              borderTopLeftRadius := borderTopLeftRadius
              borderBottomLeftRadius := p.borderRadius
              borderBottomRightRadius := p.borderRadius } } }

/-- `calculatePopoverLayoutForArrowDirectionLeft` (lines 377–461): popover
to the right of the source, arrow pointing left at it. -/
def calculatePopoverLayoutForArrowDirectionLeft
    (p : CalculatePopoverLayoutForArrowDirectionParams) : Option PopoverLayout :=
  let arrowPoint : Point :=
    { x := max
        (min
          (p.sourceRectClipped.x + p.sourceRectClipped.width)
          (p.backdropWidth - p.safeAreaEdgeInsets.right - p.arrowLength))
        p.safeAreaEdgeInsets.left
      y := max
        (min
          (p.sourceRectClippedMidpoint.y - p.arrowBreadth / 2)
          (p.backdropHeight - p.safeAreaEdgeInsets.bottom - p.arrowBreadth))
        p.safeAreaEdgeInsets.top }
  let preferredX : ℚ := arrowPoint.x + p.arrowLength
  let preferredY : ℚ := p.sourceRectClippedMidpoint.y - p.preferredHeight / 2
  let popoverOrigin : Point :=
    { x := max
        (min preferredX (p.backdropWidth - p.safeAreaEdgeInsets.right))
        (arrowPoint.x + p.arrowLength)
      y := max
        (if preferredY + p.preferredHeight ≤ p.backdropHeight - p.safeAreaEdgeInsets.bottom then
            preferredY
          else
            p.backdropHeight - p.safeAreaEdgeInsets.bottom - p.preferredHeight)
        p.safeAreaEdgeInsets.top }
  let popoverWidth : ℚ := min
    (p.backdropWidth - popoverOrigin.x - p.safeAreaEdgeInsets.right)
    p.preferredWidth
  let popoverHeight : ℚ := min
    (p.backdropHeight - p.safeAreaEdgeInsets.bottom - p.safeAreaEdgeInsets.top)
    p.preferredHeight
  let borderTopLeftRadius : ℚ :=
    if arrowPoint.y ≤ popoverOrigin.y + p.cornerWidth then 0 else p.borderRadius
  let borderBottomLeftRadius : ℚ :=
    if arrowPoint.y ≥ popoverOrigin.y + popoverHeight - p.cornerWidth then 0 else p.borderRadius
  some
    { arrow :=
        { direction := ArrowDirection.left
          x := arrowPoint.x
          y := arrowPoint.y
          width := p.arrowLength
          height := p.arrowBreadth }
      popover :=
        { x := popoverOrigin.x
          y := popoverOrigin.y
          width := popoverWidth
          height := popoverHeight
          borderRadii :=
            { borderTopRightRadius := p.borderRadius
              borderTopLeftRadius := borderTopLeftRadius
              borderBottomLeftRadius := borderBottomLeftRadius
              borderBottomRightRadius := p.borderRadius } } }

/-- `calculatePopoverLayoutForArrowDirectionRight` (lines 463–550): popover
to the left of the source, arrow pointing right at it. -/
def calculatePopoverLayoutForArrowDirectionRight
    (p : CalculatePopoverLayoutForArrowDirectionParams) : Option PopoverLayout :=
  let arrowPoint : Point :=
    { x := min
        (max
          p.safeAreaEdgeInsets.left
          (p.sourceRectClipped.x - p.arrowLength))
        (p.backdropWidth - p.safeAreaEdgeInsets.right - p.arrowLength)
      y := max
        (min
          (p.sourceRectClippedMidpoint.y - p.arrowBreadth / 2)
          (p.backdropHeight - p.safeAreaEdgeInsets.bottom - p.arrowBreadth))
        p.safeAreaEdgeInsets.top }
  let preferredX : ℚ := arrowPoint.x - p.preferredWidth
  let preferredY : ℚ := p.sourceRectClippedMidpoint.y - p.preferredHeight / 2
  let popoverOrigin : Point :=
    { x := min
        (max p.safeAreaEdgeInsets.left preferredX)
        arrowPoint.x
      y := max
        (if preferredY + p.preferredHeight ≤ p.backdropHeight - p.safeAreaEdgeInsets.bottom then
            preferredY
          else
            p.backdropHeight - p.safeAreaEdgeInsets.bottom - p.preferredHeight)
        p.safeAreaEdgeInsets.top }
  let popoverWidth : ℚ := min
    (min
      (arrowPoint.x - p.safeAreaEdgeInsets.left)
      (p.backdropWidth - popoverOrigin.x - p.safeAreaEdgeInsets.right))
    p.preferredWidth
  let popoverHeight : ℚ := min
    (p.backdropHeight - p.safeAreaEdgeInsets.bottom - p.safeAreaEdgeInsets.top)
    p.preferredHeight
  let borderTopRightRadius : ℚ :=
    if arrowPoint.y ≤ popoverOrigin.y + p.cornerWidth then 0 else p.borderRadius
  let borderBottomRightRadius : ℚ :=
    if arrowPoint.y ≥ popoverOrigin.y + popoverHeight - p.cornerWidth then 0 else p.borderRadius
  some
    { arrow :=
        { direction := ArrowDirection.right
          x := arrowPoint.x
          y := arrowPoint.y
          width := p.arrowLength
          height := p.arrowBreadth }
      popover :=
        { x := popoverOrigin.x
          y := popoverOrigin.y
          width := popoverWidth
          height := popoverHeight
          borderRadii :=
            { borderTopRightRadius := borderTopRightRadius
              borderTopLeftRadius := p.borderRadius
              borderBottomLeftRadius := p.borderRadius
              borderBottomRightRadius := borderBottomRightRadius } } }

/-- `calculatePopoverLayoutForArrowDirectionNone` (lines 552–627): centered
popover, zero-size arrow with direction `none`. -/
def calculatePopoverLayoutForArrowDirectionNone
    (p : CalculatePopoverLayoutForArrowDirectionParams) : PopoverLayout :=
  let preferredX : ℚ := p.sourceRectClippedMidpoint.x - p.preferredWidth / 2
  let preferredY : ℚ := p.sourceRectClippedMidpoint.y - p.preferredHeight / 2
  let popoverOrigin : Point :=
    { x := min
        (max
          (if preferredX + p.preferredWidth ≤ p.backdropWidth - p.safeAreaEdgeInsets.right then
              preferredX
            else
              p.backdropWidth - p.safeAreaEdgeInsets.right - p.preferredWidth)
          p.safeAreaEdgeInsets.left)
        (p.backdropWidth - p.safeAreaEdgeInsets.right)
      y := min
        (max
          (if preferredY + p.preferredHeight ≤ p.backdropHeight - p.safeAreaEdgeInsets.bottom then
              preferredY
            else
              p.backdropHeight - p.safeAreaEdgeInsets.bottom - p.preferredHeight)
          p.safeAreaEdgeInsets.top)
        (p.backdropHeight - p.safeAreaEdgeInsets.top) }
  let popoverWidth : ℚ := min
    (p.backdropWidth - p.safeAreaEdgeInsets.right - popoverOrigin.x)
    p.preferredWidth
  let popoverHeight : ℚ := min
    (p.backdropHeight - p.safeAreaEdgeInsets.bottom - popoverOrigin.y)
    p.preferredHeight
  { arrow :=
      { direction := ArrowDirection.none
        x := 0
        y := 0
        width := 0
        height := 0 }
    popover :=
      { x := popoverOrigin.x
        y := popoverOrigin.y
        width := popoverWidth
        height := popoverHeight
        borderRadii :=
          { borderTopRightRadius := p.borderRadius
            borderTopLeftRadius := p.borderRadius
            borderBottomLeftRadius := p.borderRadius
            borderBottomRightRadius := p.borderRadius } } }

/-- The `permutations` table (lines 141–146) viewed as a lookup: the
candidate layout for each input direction. -/
def permutationOfDirection (p : CalculatePopoverLayoutForArrowDirectionParams) :
    PopoverArrowDirection → Option PopoverLayout
  | PopoverArrowDirection.down => calculatePopoverLayoutForArrowDirectionDown p
  | PopoverArrowDirection.up => calculatePopoverLayoutForArrowDirectionUp p
  | PopoverArrowDirection.left => calculatePopoverLayoutForArrowDirectionLeft p
  | PopoverArrowDirection.right => calculatePopoverLayoutForArrowDirectionRight p

/-- `sortLayoutsByArea` (lines 197–203): the comparator, descending by
popover area. -/
def sortLayoutsByArea (a b : PopoverLayout) : ℚ :=
  b.popover.height * b.popover.width - a.popover.height * a.popover.width

/-- One step of a stable insertion sort under the comparator: `l` goes in
front of the first element it compares strictly before. -/
def insertLayoutByArea (l : PopoverLayout) : List PopoverLayout → List PopoverLayout
  | [] => [l]
  | h :: t =>
    if sortLayoutsByArea l h < 0 then l :: h :: t else h :: insertLayoutByArea l t

/-- Stable sort by the comparator, modelling `Array.prototype.sort`
(stable per ES2019). -/
def sortLayouts (ls : List PopoverLayout) : List PopoverLayout :=
  ls.foldl (fun acc l => insertLayoutByArea l acc) []

/-- The loop of lines 148–175: walk the permitted directions in order,
return (`Sum.inl`) the first perfect fit, otherwise accumulate the
candidate pool (`Sum.inr`) in permitted order. -/
def gatherLayouts (perm : PopoverArrowDirection → Option PopoverLayout)
    (preferredWidth preferredHeight : ℚ) :
    List PopoverArrowDirection → PopoverLayout ⊕ List PopoverLayout
  | [] => Sum.inr []
  | d :: rest =>
    match perm d with
    | Option.none => gatherLayouts perm preferredWidth preferredHeight rest
    | Option.some layout =>
      if layout.popover.height = preferredHeight ∧ layout.popover.width = preferredWidth then
        Sum.inl layout
      else
        match gatherLayouts perm preferredWidth preferredHeight rest with
        | Sum.inl l => Sum.inl l
        | Sum.inr ls => Sum.inr (layout :: ls)

/-- The `Object.keys(permutations)` order of lines 185–188: down, up,
left, right. -/
def allDirections : List PopoverArrowDirection :=
  [PopoverArrowDirection.down, PopoverArrowDirection.up,
   PopoverArrowDirection.left, PopoverArrowDirection.right]

/-- Lines 177–194: sort the accumulated pool by descending area and take
the head; on an empty pool fall back to all four directions regardless of
permission, and finally to the no-arrow layout. -/
def selectFromPool (params : CalculatePopoverLayoutForArrowDirectionParams)
    (pool : List PopoverLayout) : PopoverLayout :=
  match sortLayouts pool with
  | layout :: _ => layout
  | [] =>
    match sortLayouts (allDirections.filterMap (permutationOfDirection params)) with
    | layout :: _ => layout
    | [] => calculatePopoverLayoutForArrowDirectionNone params

/-- `calculatePopoverLayout` (lines 68–195): clip the source rect, compute
the four directional candidates, short-circuit on a perfect fit in
permitted order, otherwise take the largest-area permitted candidate,
then the largest-area candidate over all four directions, then the
no-arrow fallback. -/
def calculatePopoverLayout (p : CalculatePopoverLayoutParams) : PopoverLayout :=
  let params := mkDirectionParams p
  match gatherLayouts (permutationOfDirection params) p.preferredWidth p.preferredHeight
      p.permittedArrowDirections with
  | Sum.inl layout => layout
  | Sum.inr layouts => selectFromPool params layouts

/-! ### Predicates used by the specification's properties -/

/-- The rectangle `[x, x+width] × [y, y+height]` lies within the safe region
`[insets.left, W - insets.right] × [insets.top, H - insets.bottom]`. -/
def RectWithinSafeArea (insets : EdgeInsets) (w h : ℚ) (rx ry rw rh : ℚ) : Prop :=
  insets.left ≤ rx ∧ rx + rw ≤ w - insets.right ∧
  insets.top ≤ ry ∧ ry + rh ≤ h - insets.bottom

instance (insets : EdgeInsets) (w h rx ry rw rh : ℚ) :
    Decidable (RectWithinSafeArea insets w h rx ry rw rh) := by
  unfold RectWithinSafeArea; infer_instance

/-- The popover rectangle of a layout lies within the safe region. -/
def PopoverWithinSafeArea (insets : EdgeInsets) (w h : ℚ) (l : PopoverLayout) : Prop :=
  RectWithinSafeArea insets w h l.popover.x l.popover.y l.popover.width l.popover.height

instance (insets : EdgeInsets) (w h : ℚ) (l : PopoverLayout) :
    Decidable (PopoverWithinSafeArea insets w h l) := by
  unfold PopoverWithinSafeArea; infer_instance

/-- The arrow rectangle of a layout lies within the safe region. -/
def ArrowWithinSafeArea (insets : EdgeInsets) (w h : ℚ) (l : PopoverLayout) : Prop :=
  RectWithinSafeArea insets w h l.arrow.x l.arrow.y l.arrow.width l.arrow.height

instance (insets : EdgeInsets) (w h : ℚ) (l : PopoverLayout) :
    Decidable (ArrowWithinSafeArea insets w h l) := by
  unfold ArrowWithinSafeArea; infer_instance

/-- Validity of the input: the arrow dimensions are non-negative and the safe
region is large enough to hold the arrow on each axis, whichever way the
arrow is oriented. -/
def ArrowFitsSafeArea (insets : EdgeInsets) (w h arrowBreadth arrowLength : ℚ) : Prop :=
  0 ≤ arrowBreadth ∧ 0 ≤ arrowLength ∧
  insets.left + arrowBreadth ≤ w - insets.right ∧
  insets.left + arrowLength ≤ w - insets.right ∧
  insets.top + arrowBreadth ≤ h - insets.bottom ∧
  insets.top + arrowLength ≤ h - insets.bottom

instance (insets : EdgeInsets) (w h ab al : ℚ) :
    Decidable (ArrowFitsSafeArea insets w h ab al) := by
  unfold ArrowFitsSafeArea; infer_instance

/-- The quantity the comparator `sortLayoutsByArea` ranks by: the popover's
area, as `height * width`. -/
def popoverArea (l : PopoverLayout) : ℚ :=
  l.popover.height * l.popover.width

/-- Output direction corresponding to each input direction. -/
def outputDirection : PopoverArrowDirection → ArrowDirection
  | PopoverArrowDirection.up => ArrowDirection.up
  | PopoverArrowDirection.down => ArrowDirection.down
  | PopoverArrowDirection.left => ArrowDirection.left
  | PopoverArrowDirection.right => ArrowDirection.right

/-! ### Concrete inputs used to witness the properties -/

/-- The concrete scenario of spec §8: viewport 400×800, insets all 10,
source rect (180, 100, 40, 40), preferred size 300×400, arrow 15×30,
corner width 30, border radius 15, permitted directions `[down]`. -/
def exampleScenario : CalculatePopoverLayoutParams :=
  { permittedArrowDirections := [PopoverArrowDirection.down]
    safeAreaEdgeInsets := { top := 10, left := 10, bottom := 10, right := 10 }
    sourceRect := { x := 180, y := 100, width := 40, height := 40 }
    backdropHeight := 800
    backdropWidth := 400
    preferredHeight := 400
    preferredWidth := 300
    arrowBreadth := 30
    arrowLength := 15
    cornerWidth := 30
    borderRadius := 15 }

/-- The "down" candidate produced for `exampleScenario`. -/
def exampleDownLayout : PopoverLayout :=
  { arrow := { direction := ArrowDirection.down, x := 185, y := 85, width := 30, height := 15 }
    popover :=
      { x := 50
        y := 10
        width := 300
        height := 75
        borderRadii :=
          { borderTopRightRadius := 15
            borderTopLeftRadius := 15
            borderBottomLeftRadius := 15
            borderBottomRightRadius := 15 } } }

/-- A variant of the spec §8 scenario in which the "down" candidate is a
perfect fit: source low enough and preferred size small enough (100×100)
that nothing is clamped. -/
def perfectFitScenario : CalculatePopoverLayoutParams :=
  { permittedArrowDirections := [PopoverArrowDirection.down, PopoverArrowDirection.up]
    safeAreaEdgeInsets := { top := 10, left := 10, bottom := 10, right := 10 }
    sourceRect := { x := 180, y := 300, width := 40, height := 40 }
    backdropHeight := 800
    backdropWidth := 400
    preferredHeight := 100
    preferredWidth := 100
    arrowBreadth := 30
    arrowLength := 15
    cornerWidth := 30
    borderRadius := 15 }

/-- The perfect-fit "down" candidate produced for `perfectFitScenario`. -/
def perfectFitDownLayout : PopoverLayout :=
  { arrow := { direction := ArrowDirection.down, x := 185, y := 285, width := 30, height := 15 }
    popover :=
      { x := 150
        y := 185
        width := 100
        height := 100
        borderRadii :=
          { borderTopRightRadius := 15
            borderTopLeftRadius := 15
            borderBottomLeftRadius := 15
            borderBottomRightRadius := 15 } } }

/-- The spec §8 scenario with an empty permitted-direction list. -/
def emptyPermittedScenario : CalculatePopoverLayoutParams :=
  { exampleScenario with permittedArrowDirections := [] }

/-- Degenerate insets: the vertical safe span `[60, 100 - 60]` is empty, so
no rectangle with a non-negative height can lie within it. -/
def degenerateInsetsScenario : CalculatePopoverLayoutParams :=
  { permittedArrowDirections := [PopoverArrowDirection.down]
    safeAreaEdgeInsets := { top := 60, left := 0, bottom := 60, right := 0 }
    sourceRect := { x := 0, y := 0, width := 10, height := 10 }
    backdropHeight := 100
    backdropWidth := 100
    preferredHeight := 50
    preferredWidth := 50
    arrowBreadth := 0
    arrowLength := 0
    cornerWidth := 0
    borderRadius := 0 }

/-- A 0×0 viewport with zero insets, positive preferred size and a
non-negative arrow length of 5, permitted directions `[up]`. -/
def zeroViewportScenario : CalculatePopoverLayoutParams :=
  { permittedArrowDirections := [PopoverArrowDirection.up]
    safeAreaEdgeInsets := { top := 0, left := 0, bottom := 0, right := 0 }
    sourceRect := { x := 0, y := 0, width := 0, height := 0 }
    backdropHeight := 0
    backdropWidth := 0
    preferredHeight := 100
    preferredWidth := 100
    arrowBreadth := 0
    arrowLength := 5
    cornerWidth := 0
    borderRadius := 0 }

/-- A source rect lying entirely to the right of the safe region of a
100×100 viewport with zero insets. -/
def offscreenSourceScenario : CalculatePopoverLayoutParams :=
  { permittedArrowDirections := []
    safeAreaEdgeInsets := { top := 0, left := 0, bottom := 0, right := 0 }
    sourceRect := { x := 110, y := 0, width := 50, height := 10 }
    backdropHeight := 100
    backdropWidth := 100
    preferredHeight := 10
    preferredWidth := 10
    arrowBreadth := 0
    arrowLength := 0
    cornerWidth := 0
    borderRadius := 0 }

/-- A 0×0 viewport with zero insets and zero arrow dimensions: the
amended degenerate-viewport guarantee applies. -/
def zeroArrowZeroViewportScenario : CalculatePopoverLayoutParams :=
  { permittedArrowDirections := [PopoverArrowDirection.up]
    safeAreaEdgeInsets := { top := 0, left := 0, bottom := 0, right := 0 }
    sourceRect := { x := 0, y := 0, width := 0, height := 0 }
    backdropHeight := 0
    backdropWidth := 0
    preferredHeight := 100
    preferredWidth := 100
    arrowBreadth := 0
    arrowLength := 0
    cornerWidth := 0
    borderRadius := 0 }

/-- The "down" candidate produced for `cornerScenario`. -/
def cornerDownLayout : PopoverLayout :=
  { arrow := { direction := ArrowDirection.down, x := 45, y := 30, width := 10, height := 10 }
    popover :=
      { x := 20
        y := 0
        width := 60
        height := 30
        borderRadii :=
          { borderTopRightRadius := 15
            borderTopLeftRadius := 15
            borderBottomLeftRadius := 0
            borderBottomRightRadius := 0 } } }

/-- Per-direction parameters whose corner width (1000) dwarfs the viewport,
so every arrow anchor is within corner width of both arrow-adjacent
corners. -/
def cornerScenario : CalculatePopoverLayoutForArrowDirectionParams :=
  { sourceRectClippedMidpoint := { x := 50, y := 50 }
    backdropWidth := 100
    safeAreaEdgeInsets := { top := 0, left := 0, bottom := 0, right := 0 }
    sourceRectClipped := { x := 40, y := 40, width := 20, height := 20 }
    backdropHeight := 100
    preferredHeight := 60
    preferredWidth := 60
    arrowBreadth := 10
    arrowLength := 10
    cornerWidth := 1000
    borderRadius := 15 }

/-! ### Facts about the stable sort -/

lemma insertLayoutByArea_length (l : PopoverLayout) (acc : List PopoverLayout) :
    (insertLayoutByArea l acc).length = acc.length + 1 := by
  induction acc with
  | nil => rfl
  | cons h t ih =>
    unfold insertLayoutByArea
    split
    · simp
    · simp [ih]

lemma sortLayouts_length (ls : List PopoverLayout) :
    (sortLayouts ls).length = ls.length := by
  suffices h : ∀ acc : List PopoverLayout,
      (ls.foldl (fun acc l => insertLayoutByArea l acc) acc).length = acc.length + ls.length by
    simpa using h []
  induction ls with
  | nil => intro acc; simp
  | cons hd tl ih =>
    intro acc
    simp only [List.foldl_cons, ih, insertLayoutByArea_length, List.length_cons]
    ring

lemma sortLayouts_eq_nil (ls : List PopoverLayout) (h : sortLayouts ls = []) : ls = [] := by
  have := sortLayouts_length ls
  rw [h] at this
  exact List.length_eq_zero.mp this.symm

lemma mem_insertLayoutByArea (x l : PopoverLayout) (acc : List PopoverLayout) :
    x ∈ insertLayoutByArea l acc ↔ x = l ∨ x ∈ acc := by
  induction acc with
  | nil => simp [insertLayoutByArea]
  | cons h t ih =>
    unfold insertLayoutByArea
    split
    · simp
    · simp only [List.mem_cons, ih]
      tauto

lemma mem_foldl_insertLayoutByArea (x : PopoverLayout) :
    ∀ ls acc : List PopoverLayout,
      x ∈ ls.foldl (fun acc l => insertLayoutByArea l acc) acc → x ∈ acc ∨ x ∈ ls := by
  intro ls
  induction ls with
  | nil => intro acc hacc; exact Or.inl hacc
  | cons hd tl ih =>
    intro acc hacc
    rcases ih (insertLayoutByArea hd acc) hacc with h' | h'
    · rcases (mem_insertLayoutByArea x hd acc).mp h' with h'' | h''
      · exact Or.inr (by simp [h''])
      · exact Or.inl h''
    · exact Or.inr (List.mem_cons_of_mem _ h')

lemma mem_sortLayouts (x : PopoverLayout) (ls : List PopoverLayout)
    (h : x ∈ sortLayouts ls) : x ∈ ls := by
  rcases mem_foldl_insertLayoutByArea x ls [] h with h' | h'
  · simp at h'
  · exact h'

lemma sortLayouts_append_singleton (ls : List PopoverLayout) (l : PopoverLayout) :
    sortLayouts (ls ++ [l]) = insertLayoutByArea l (sortLayouts ls) := by
  simp [sortLayouts]

/-- The head of the stable descending-area sort is a maximal-area element,
and every element strictly before its position in the original list has
strictly smaller area (the stable tie-break). -/
lemma sortLayouts_head_spec (ls : List PopoverLayout) :
    ∀ (r : PopoverLayout) (rest : List PopoverLayout), sortLayouts ls = r :: rest →
    (∀ x ∈ ls, popoverArea x ≤ popoverArea r) ∧
    ∃ pre post, ls = pre ++ r :: post ∧ ∀ x ∈ pre, popoverArea x < popoverArea r := by
  induction ls using List.reverseRecOn with
  | nil => intro r rest h; simp [sortLayouts] at h
  | append_singleton ls l ih =>
    intro r rest h
    rw [sortLayouts_append_singleton] at h
    cases hs : sortLayouts ls with
    | nil =>
      have hnil : ls = [] := sortLayouts_eq_nil ls hs
      subst hnil
      rw [hs] at h
      unfold insertLayoutByArea at h
      obtain ⟨h1, h2⟩ : l = r ∧ [] = rest := by simpa using h
      subst h1
      refine ⟨by simp, [], [], by simp, by simp⟩
    | cons hd tl =>
      rw [hs] at h
      unfold insertLayoutByArea at h
      obtain ⟨hmax, pre, post, hsplit, hpre⟩ := ih hd tl hs
      by_cases hc : sortLayoutsByArea l hd < 0
      · rw [if_pos hc] at h
        obtain ⟨h1, h2⟩ : l = r ∧ hd :: tl = rest := by simpa using h
        subst h1
        have hlt : popoverArea hd < popoverArea l := by
          unfold sortLayoutsByArea at hc
          unfold popoverArea
          linarith
        refine ⟨?_, ls, [], by simp, ?_⟩
        · intro x hx
          rcases List.mem_append.mp hx with hx' | hx'
          · exact le_of_lt (lt_of_le_of_lt (hmax x hx') hlt)
          · simp only [List.mem_singleton] at hx'
            exact le_of_eq (by rw [hx'])
        · intro x hx
          exact lt_of_le_of_lt (hmax x hx) hlt
      · rw [if_neg hc] at h
        obtain ⟨h1, h2⟩ : hd = r ∧ insertLayoutByArea l tl = rest := by simpa using h
        subst h1
        have hle : popoverArea l ≤ popoverArea hd := by
          unfold sortLayoutsByArea at hc
          unfold popoverArea
          push_neg at hc
          linarith
        refine ⟨?_, pre, post ++ [l], by rw [hsplit]; simp, hpre⟩
        intro x hx
        rcases List.mem_append.mp hx with hx' | hx'
        · exact hmax x hx'
        · simp only [List.mem_singleton] at hx'
          exact le_of_eq (congrArg popoverArea hx') |>.trans hle

/-! ### Facts about the permitted-direction loop -/

lemma gatherLayouts_inl (perm : PopoverArrowDirection → Option PopoverLayout)
    (pw ph : ℚ) :
    ∀ (ds : List PopoverArrowDirection) (l : PopoverLayout),
      gatherLayouts perm pw ph ds = Sum.inl l →
      (∃ d ∈ ds, perm d = Option.some l) ∧
      l.popover.height = ph ∧ l.popover.width = pw := by
  intro ds
  induction ds with
  | nil => intro l h; simp [gatherLayouts] at h
  | cons d rest ih =>
    intro l h
    unfold gatherLayouts at h
    split at h
    · obtain ⟨⟨d', hd', hpd'⟩, hfit⟩ := ih l h
      exact ⟨⟨d', List.mem_cons_of_mem _ hd', hpd'⟩, hfit⟩
    · rename_i layout hp
      split_ifs at h with hc
      · obtain rfl : layout = l := by simpa using h
        exact ⟨⟨d, List.mem_cons_self _ _, hp⟩, hc⟩
      · split at h
        · rename_i l' hg
          have heq : l' = l := by simpa using h
          obtain ⟨⟨d', hd', hpd'⟩, hfit⟩ := ih l' hg
          exact ⟨⟨d', List.mem_cons_of_mem _ hd', heq ▸ hpd'⟩, heq ▸ hfit⟩
        · simp at h

lemma gatherLayouts_inr_mem (perm : PopoverArrowDirection → Option PopoverLayout)
    (pw ph : ℚ) :
    ∀ (ds : List PopoverArrowDirection) (ls : List PopoverLayout),
      gatherLayouts perm pw ph ds = Sum.inr ls →
      ∀ x ∈ ls, ∃ d ∈ ds, perm d = Option.some x := by
  intro ds
  induction ds with
  | nil =>
    intro ls h x hx
    obtain rfl : ([] : List PopoverLayout) = ls := by simpa [gatherLayouts] using h
    simp at hx
  | cons d rest ih =>
    intro ls h x hx
    unfold gatherLayouts at h
    split at h
    · obtain ⟨d', hd', hpd'⟩ := ih ls h x hx
      exact ⟨d', List.mem_cons_of_mem _ hd', hpd'⟩
    · rename_i layout hp
      split_ifs at h with hc
      split at h
      · simp at h
      · rename_i ls' hg
        obtain rfl : layout :: ls' = ls := by simpa using h
        rcases List.mem_cons.mp hx with hx' | hx'
        · exact ⟨d, List.mem_cons_self _ _, by rw [hp, hx']⟩
        · obtain ⟨d', hd', hpd'⟩ := ih ls' hg x hx'
          exact ⟨d', List.mem_cons_of_mem _ hd', hpd'⟩

/-- If every direction before `d` in the permitted list has no perfect-fit
candidate and `d`'s candidate is a perfect fit, the loop short-circuits
with `d`'s candidate. -/
lemma gatherLayouts_perfect_first (perm : PopoverArrowDirection → Option PopoverLayout)
    (pw ph : ℚ) :
    ∀ (ds₁ : List PopoverArrowDirection) (d : PopoverArrowDirection)
      (ds₂ : List PopoverArrowDirection) (l : PopoverLayout),
      (∀ d' ∈ ds₁, ∀ l', perm d' = Option.some l' →
        ¬(l'.popover.height = ph ∧ l'.popover.width = pw)) →
      perm d = Option.some l →
      l.popover.height = ph → l.popover.width = pw →
      gatherLayouts perm pw ph (ds₁ ++ d :: ds₂) = Sum.inl l := by
  intro ds₁
  induction ds₁ with
  | nil =>
    intro d ds₂ l _ hd hh hw
    rw [List.nil_append]
    unfold gatherLayouts
    rw [hd]
    simp [hh, hw]
  | cons d₀ rest ih =>
    intro d ds₂ l hbefore hd hh hw
    have hrec : gatherLayouts perm pw ph (rest ++ d :: ds₂) = Sum.inl l :=
      ih d ds₂ l (fun d' hd' => hbefore d' (List.mem_cons_of_mem _ hd')) hd hh hw
    rw [List.cons_append]
    unfold gatherLayouts
    cases hp : perm d₀ with
    | none => exact hrec
    | some layout =>
      have hnfit := hbefore d₀ (List.mem_cons_self _ _) layout hp
      simp only [hrec, if_neg hnfit]

/-! ### Facts about the candidates and the selector -/

lemma permutation_isSome (q : CalculatePopoverLayoutForArrowDirectionParams)
    (d : PopoverArrowDirection) :
    ∃ l, permutationOfDirection q d = Option.some l := by
  cases d <;> exact ⟨_, rfl⟩

lemma candidate_direction (q : CalculatePopoverLayoutForArrowDirectionParams)
    (d : PopoverArrowDirection) (l : PopoverLayout)
    (h : permutationOfDirection q d = Option.some l) :
    l.arrow.direction = outputDirection d := by
  cases d <;>
    simp only [permutationOfDirection, calculatePopoverLayoutForArrowDirectionDown,
      calculatePopoverLayoutForArrowDirectionUp, calculatePopoverLayoutForArrowDirectionLeft,
      calculatePopoverLayoutForArrowDirectionRight, Option.some.injEq] at h <;>
    rw [← h] <;> rfl

/-- Computation rule: a perfect fit found by the loop is the result. -/
lemma calculatePopoverLayout_inl (p : CalculatePopoverLayoutParams) (l : PopoverLayout)
    (hg : gatherLayouts (permutationOfDirection (mkDirectionParams p))
      p.preferredWidth p.preferredHeight p.permittedArrowDirections = Sum.inl l) :
    calculatePopoverLayout p = l := by
  have hdef : calculatePopoverLayout p =
      match gatherLayouts (permutationOfDirection (mkDirectionParams p))
          p.preferredWidth p.preferredHeight p.permittedArrowDirections with
      | Sum.inl layout => layout
      | Sum.inr layouts => selectFromPool (mkDirectionParams p) layouts := rfl
  rw [hdef, hg]

/-- Computation rule: with no perfect fit, the result is selected from the
pool. -/
lemma calculatePopoverLayout_inr (p : CalculatePopoverLayoutParams)
    (pool : List PopoverLayout)
    (hg : gatherLayouts (permutationOfDirection (mkDirectionParams p))
      p.preferredWidth p.preferredHeight p.permittedArrowDirections = Sum.inr pool) :
    calculatePopoverLayout p = selectFromPool (mkDirectionParams p) pool := by
  have hdef : calculatePopoverLayout p =
      match gatherLayouts (permutationOfDirection (mkDirectionParams p))
          p.preferredWidth p.preferredHeight p.permittedArrowDirections with
      | Sum.inl layout => layout
      | Sum.inr layouts => selectFromPool (mkDirectionParams p) layouts := rfl
  rw [hdef, hg]

/-- Computation rule: a non-empty sorted pool yields its head. -/
lemma selectFromPool_cons (params : CalculatePopoverLayoutForArrowDirectionParams)
    (pool : List PopoverLayout) (r : PopoverLayout) (rest : List PopoverLayout)
    (hs : sortLayouts pool = r :: rest) :
    selectFromPool params pool = r := by
  unfold selectFromPool
  rw [hs]

/-- Computation rule: an empty pool falls through to the sorted
all-directions candidates. -/
lemma selectFromPool_nil_cons (params : CalculatePopoverLayoutForArrowDirectionParams)
    (pool : List PopoverLayout) (hs : sortLayouts pool = [])
    (r : PopoverLayout) (rest : List PopoverLayout)
    (hs2 : sortLayouts (allDirections.filterMap (permutationOfDirection params)) = r :: rest) :
    selectFromPool params pool = r := by
  unfold selectFromPool
  rw [hs, hs2]

/-- The sorted list of all four directional candidates is never empty. -/
lemma sortLayouts_allDirections_ne_nil
    (params : CalculatePopoverLayoutForArrowDirectionParams) :
    sortLayouts (allDirections.filterMap (permutationOfDirection params)) ≠ [] := by
  intro hs2
  obtain ⟨l, hl⟩ := permutation_isSome params PopoverArrowDirection.down
  have hmem : l ∈ allDirections.filterMap (permutationOfDirection params) :=
    List.mem_filterMap.mpr ⟨PopoverArrowDirection.down, by simp [allDirections], hl⟩
  have hnil : allDirections.filterMap (permutationOfDirection params) = [] :=
    sortLayouts_eq_nil _ hs2
  rw [hnil] at hmem
  simp at hmem

/-- Every layout `calculatePopoverLayout` returns is one of the four
directional candidates: the no-arrow fallback branch is dead code. -/
lemma calculatePopoverLayout_is_candidate (p : CalculatePopoverLayoutParams) :
    ∃ d l, permutationOfDirection (mkDirectionParams p) d = Option.some l ∧
      calculatePopoverLayout p = l := by
  cases hg : gatherLayouts (permutationOfDirection (mkDirectionParams p))
      p.preferredWidth p.preferredHeight p.permittedArrowDirections with
  | inl l =>
    obtain ⟨⟨d, _, hd⟩, _⟩ := gatherLayouts_inl _ _ _ _ l hg
    exact ⟨d, l, hd, calculatePopoverLayout_inl p l hg⟩
  | inr ls =>
    rw [calculatePopoverLayout_inr p ls hg]
    cases hs : sortLayouts ls with
    | cons r rest =>
      have hr : r ∈ ls := mem_sortLayouts r ls (by rw [hs]; exact List.mem_cons_self _ _)
      obtain ⟨d, _, hd⟩ := gatherLayouts_inr_mem _ _ _ _ ls hg r hr
      exact ⟨d, r, hd, selectFromPool_cons _ ls r rest hs⟩
    | nil =>
      cases hs2 : sortLayouts (allDirections.filterMap
          (permutationOfDirection (mkDirectionParams p))) with
      | cons r rest =>
        have hr : r ∈ allDirections.filterMap (permutationOfDirection (mkDirectionParams p)) :=
          mem_sortLayouts r _ (by rw [hs2]; exact List.mem_cons_self _ _)
        obtain ⟨d, _, hd⟩ := List.mem_filterMap.mp hr
        exact ⟨d, r, hd, selectFromPool_nil_cons _ ls hs r rest hs2⟩
      | nil => exact absurd hs2 (sortLayouts_allDirections_ne_nil _)

/-! ### Containment of each directional candidate in the safe region -/

lemma down_within_safe (q : CalculatePopoverLayoutForArrowDirectionParams)
    (_hB : 0 ≤ q.arrowBreadth) (hL : 0 ≤ q.arrowLength)
    (hxB : q.safeAreaEdgeInsets.left + q.arrowBreadth ≤
      q.backdropWidth - q.safeAreaEdgeInsets.right)
    (hyL : q.safeAreaEdgeInsets.top + q.arrowLength ≤
      q.backdropHeight - q.safeAreaEdgeInsets.bottom) :
    ∀ l, calculatePopoverLayoutForArrowDirectionDown q = Option.some l →
      PopoverWithinSafeArea q.safeAreaEdgeInsets q.backdropWidth q.backdropHeight l ∧
      ArrowWithinSafeArea q.safeAreaEdgeInsets q.backdropWidth q.backdropHeight l := by
  intro l hl
  simp only [calculatePopoverLayoutForArrowDirectionDown, Option.some.injEq] at hl
  subst hl
  unfold PopoverWithinSafeArea ArrowWithinSafeArea RectWithinSafeArea
  dsimp only
  refine ⟨⟨?_, ?_, ?_, ?_⟩, ?_, ?_, ?_, ?_⟩ <;>
    · simp only [min_def, max_def]
      split_ifs <;> linarith

lemma up_within_safe (q : CalculatePopoverLayoutForArrowDirectionParams)
    (_hB : 0 ≤ q.arrowBreadth) (hL : 0 ≤ q.arrowLength)
    (hxB : q.safeAreaEdgeInsets.left + q.arrowBreadth ≤
      q.backdropWidth - q.safeAreaEdgeInsets.right)
    (hyL : q.safeAreaEdgeInsets.top + q.arrowLength ≤
      q.backdropHeight - q.safeAreaEdgeInsets.bottom) :
    ∀ l, calculatePopoverLayoutForArrowDirectionUp q = Option.some l →
      PopoverWithinSafeArea q.safeAreaEdgeInsets q.backdropWidth q.backdropHeight l ∧
      ArrowWithinSafeArea q.safeAreaEdgeInsets q.backdropWidth q.backdropHeight l := by
  intro l hl
  simp only [calculatePopoverLayoutForArrowDirectionUp, Option.some.injEq] at hl
  subst hl
  unfold PopoverWithinSafeArea ArrowWithinSafeArea RectWithinSafeArea
  dsimp only
  refine ⟨⟨?_, ?_, ?_, ?_⟩, ?_, ?_, ?_, ?_⟩ <;>
    · simp only [min_def, max_def]
      split_ifs <;> linarith

lemma left_within_safe (q : CalculatePopoverLayoutForArrowDirectionParams)
    (_hB : 0 ≤ q.arrowBreadth) (hL : 0 ≤ q.arrowLength)
    (hxL : q.safeAreaEdgeInsets.left + q.arrowLength ≤
      q.backdropWidth - q.safeAreaEdgeInsets.right)
    (hyB : q.safeAreaEdgeInsets.top + q.arrowBreadth ≤
      q.backdropHeight - q.safeAreaEdgeInsets.bottom) :
    ∀ l, calculatePopoverLayoutForArrowDirectionLeft q = Option.some l →
      PopoverWithinSafeArea q.safeAreaEdgeInsets q.backdropWidth q.backdropHeight l ∧
      ArrowWithinSafeArea q.safeAreaEdgeInsets q.backdropWidth q.backdropHeight l := by
  intro l hl
  simp only [calculatePopoverLayoutForArrowDirectionLeft, Option.some.injEq] at hl
  subst hl
  unfold PopoverWithinSafeArea ArrowWithinSafeArea RectWithinSafeArea
  dsimp only
  refine ⟨⟨?_, ?_, ?_, ?_⟩, ?_, ?_, ?_, ?_⟩ <;>
    · simp only [min_def, max_def]
      split_ifs <;> linarith

lemma right_within_safe (q : CalculatePopoverLayoutForArrowDirectionParams)
    (_hB : 0 ≤ q.arrowBreadth) (hL : 0 ≤ q.arrowLength)
    (hxL : q.safeAreaEdgeInsets.left + q.arrowLength ≤
      q.backdropWidth - q.safeAreaEdgeInsets.right)
    (hyB : q.safeAreaEdgeInsets.top + q.arrowBreadth ≤
      q.backdropHeight - q.safeAreaEdgeInsets.bottom) :
    ∀ l, calculatePopoverLayoutForArrowDirectionRight q = Option.some l →
      PopoverWithinSafeArea q.safeAreaEdgeInsets q.backdropWidth q.backdropHeight l ∧
      ArrowWithinSafeArea q.safeAreaEdgeInsets q.backdropWidth q.backdropHeight l := by
  intro l hl
  simp only [calculatePopoverLayoutForArrowDirectionRight, Option.some.injEq] at hl
  subst hl
  unfold PopoverWithinSafeArea ArrowWithinSafeArea RectWithinSafeArea
  dsimp only
  refine ⟨⟨?_, ?_, ?_, ?_⟩, ?_, ?_, ?_, ?_⟩ <;>
    · simp only [min_def, max_def]
      split_ifs <;> linarith

/-- Each directional candidate's popover never exceeds the preferred size
on either axis. -/
lemma candidate_size_bound (q : CalculatePopoverLayoutForArrowDirectionParams)
    (d : PopoverArrowDirection) (l : PopoverLayout)
    (h : permutationOfDirection q d = Option.some l) :
    l.popover.width ≤ q.preferredWidth ∧ l.popover.height ≤ q.preferredHeight := by
  cases d <;>
    simp only [permutationOfDirection, calculatePopoverLayoutForArrowDirectionDown,
      calculatePopoverLayoutForArrowDirectionUp, calculatePopoverLayoutForArrowDirectionLeft,
      calculatePopoverLayoutForArrowDirectionRight, Option.some.injEq] at h <;>
    subst h <;>
    exact ⟨min_le_right _ _, min_le_right _ _⟩

set_option maxHeartbeats 1000000 in
/-- On a 0×0 viewport with zero insets and zero arrow dimensions, every
directional candidate degenerates to zero-size rectangles. -/
lemma degenerate_candidate_sizes (q : CalculatePopoverLayoutForArrowDirectionParams)
    (hW : q.backdropWidth = 0) (hH : q.backdropHeight = 0)
    (hil : q.safeAreaEdgeInsets.left = 0) (hir : q.safeAreaEdgeInsets.right = 0)
    (hit : q.safeAreaEdgeInsets.top = 0) (hib : q.safeAreaEdgeInsets.bottom = 0)
    (hB : q.arrowBreadth = 0) (hL : q.arrowLength = 0)
    (hpw : 0 ≤ q.preferredWidth) (hph : 0 ≤ q.preferredHeight) :
    ∀ d l, permutationOfDirection q d = Option.some l →
      l.popover.width = 0 ∧ l.popover.height = 0 ∧
      l.arrow.width = 0 ∧ l.arrow.height = 0 := by
  intro d l hd
  cases d <;>
    simp only [permutationOfDirection, calculatePopoverLayoutForArrowDirectionDown,
      calculatePopoverLayoutForArrowDirectionUp, calculatePopoverLayoutForArrowDirectionLeft,
      calculatePopoverLayoutForArrowDirectionRight, Option.some.injEq] at hd <;>
    subst hd <;>
    dsimp only <;>
    refine ⟨?_, ?_, ?_, ?_⟩ <;>
    first
    | exact hB
    | exact hL
    | (simp only [min_def, max_def]; split_ifs <;> linarith)

/-! ### Concrete evaluations -/

lemma eval_perm_example_down :
    permutationOfDirection (mkDirectionParams exampleScenario) PopoverArrowDirection.down =
      Option.some exampleDownLayout := by
  norm_num [exampleScenario, exampleDownLayout, mkDirectionParams, sourcePointClipped,
    sourceRectClipped, sourceRectClippedMidpoint, permutationOfDirection,
    calculatePopoverLayoutForArrowDirectionDown, min_def, max_def]

lemma eval_gather_example :
    gatherLayouts (permutationOfDirection (mkDirectionParams exampleScenario))
      exampleScenario.preferredWidth exampleScenario.preferredHeight
      exampleScenario.permittedArrowDirections = Sum.inr [exampleDownLayout] := by
  norm_num [exampleScenario, exampleDownLayout, mkDirectionParams, sourcePointClipped,
    sourceRectClipped, sourceRectClippedMidpoint, gatherLayouts, permutationOfDirection,
    calculatePopoverLayoutForArrowDirectionDown, min_def, max_def]

lemma eval_calculate_example :
    calculatePopoverLayout exampleScenario = exampleDownLayout := by
  norm_num [calculatePopoverLayout, exampleScenario, exampleDownLayout, mkDirectionParams,
    sourcePointClipped, sourceRectClipped, sourceRectClippedMidpoint, gatherLayouts,
    permutationOfDirection, calculatePopoverLayoutForArrowDirectionDown,
    calculatePopoverLayoutForArrowDirectionUp, calculatePopoverLayoutForArrowDirectionLeft,
    calculatePopoverLayoutForArrowDirectionRight, calculatePopoverLayoutForArrowDirectionNone,
    sortLayouts, insertLayoutByArea, sortLayoutsByArea, allDirections, selectFromPool,
    min_def, max_def]

lemma eval_perm_perfectFit_down :
    permutationOfDirection (mkDirectionParams perfectFitScenario) PopoverArrowDirection.down =
      Option.some perfectFitDownLayout := by
  norm_num [perfectFitScenario, perfectFitDownLayout, mkDirectionParams, sourcePointClipped,
    sourceRectClipped, sourceRectClippedMidpoint, permutationOfDirection,
    calculatePopoverLayoutForArrowDirectionDown, min_def, max_def]

/-! ### The claims -/

/-- C1 counterexample: with degenerate insets (top = bottom = 60 on a
height-100 viewport) the returned popover's bottom edge (60) exceeds the
safe region's bottom edge (40), so containment does not hold for every
input. -/
theorem spec_c1_counterexample :
    degenerateInsetsScenario.backdropHeight -
      degenerateInsetsScenario.safeAreaEdgeInsets.bottom <
    (calculatePopoverLayout degenerateInsetsScenario).popover.y +
      (calculatePopoverLayout degenerateInsetsScenario).popover.height := by
  norm_num [calculatePopoverLayout, degenerateInsetsScenario, mkDirectionParams,
    sourcePointClipped, sourceRectClipped, sourceRectClippedMidpoint, gatherLayouts,
    permutationOfDirection, calculatePopoverLayoutForArrowDirectionDown,
    calculatePopoverLayoutForArrowDirectionUp, calculatePopoverLayoutForArrowDirectionLeft,
    calculatePopoverLayoutForArrowDirectionRight, calculatePopoverLayoutForArrowDirectionNone,
    sortLayouts, insertLayoutByArea, sortLayoutsByArea, allDirections, selectFromPool,
    min_def, max_def]

/-- C1 (amended): whenever the arrow dimensions are non-negative and the
safe region is large enough to hold the arrow on each axis in either
orientation, the popover rectangle returned by `calculatePopoverLayout` —
and the arrow rectangle whenever the returned direction is not `none` —
lie within the safe region, and each directional calculator independently
preserves this for its own popover and arrow rectangles. -/
theorem spec_c1_containment (p : CalculatePopoverLayoutParams)
    (h : ArrowFitsSafeArea p.safeAreaEdgeInsets p.backdropWidth p.backdropHeight
      p.arrowBreadth p.arrowLength) :
    PopoverWithinSafeArea p.safeAreaEdgeInsets p.backdropWidth p.backdropHeight
      (calculatePopoverLayout p) ∧
    ((calculatePopoverLayout p).arrow.direction ≠ ArrowDirection.none →
      ArrowWithinSafeArea p.safeAreaEdgeInsets p.backdropWidth p.backdropHeight
        (calculatePopoverLayout p)) ∧
    ∀ d l, permutationOfDirection (mkDirectionParams p) d = Option.some l →
      PopoverWithinSafeArea p.safeAreaEdgeInsets p.backdropWidth p.backdropHeight l ∧
      ArrowWithinSafeArea p.safeAreaEdgeInsets p.backdropWidth p.backdropHeight l := by
  obtain ⟨hB, hL, hxB, hxL, hyB, hyL⟩ := h
  have hall : ∀ d l, permutationOfDirection (mkDirectionParams p) d = Option.some l →
      PopoverWithinSafeArea p.safeAreaEdgeInsets p.backdropWidth p.backdropHeight l ∧
      ArrowWithinSafeArea p.safeAreaEdgeInsets p.backdropWidth p.backdropHeight l := by
    intro d l hd
    cases d
    · exact up_within_safe (mkDirectionParams p) hB hL hxB hyL l hd
    · exact down_within_safe (mkDirectionParams p) hB hL hxB hyL l hd
    · exact left_within_safe (mkDirectionParams p) hB hL hxL hyB l hd
    · exact right_within_safe (mkDirectionParams p) hB hL hxL hyB l hd
  obtain ⟨d, l, hd, hres⟩ := calculatePopoverLayout_is_candidate p
  rw [hres]
  exact ⟨(hall d l hd).1, fun _ => (hall d l hd).2, hall⟩

/-- C1 witness: the spec §8 scenario satisfies the validity hypothesis and
its returned popover and arrow lie within the safe region. -/
theorem spec_c1_containment_witness :
    ArrowFitsSafeArea exampleScenario.safeAreaEdgeInsets exampleScenario.backdropWidth
      exampleScenario.backdropHeight exampleScenario.arrowBreadth
      exampleScenario.arrowLength ∧
    PopoverWithinSafeArea exampleScenario.safeAreaEdgeInsets exampleScenario.backdropWidth
      exampleScenario.backdropHeight (calculatePopoverLayout exampleScenario) ∧
    ArrowWithinSafeArea exampleScenario.safeAreaEdgeInsets exampleScenario.backdropWidth
      exampleScenario.backdropHeight (calculatePopoverLayout exampleScenario) := by
  have h : ArrowFitsSafeArea exampleScenario.safeAreaEdgeInsets exampleScenario.backdropWidth
      exampleScenario.backdropHeight exampleScenario.arrowBreadth
      exampleScenario.arrowLength := by
    norm_num [ArrowFitsSafeArea, exampleScenario]
  exact ⟨h, (spec_c1_containment exampleScenario h).1,
    (spec_c1_containment exampleScenario h).2.1
      (by rw [eval_calculate_example]; simp [exampleDownLayout])⟩

/-- C2: the popover of the returned layout, of each directional candidate,
and of the no-arrow fallback never exceeds the preferred width or height. -/
theorem spec_c2_size_bound :
    (∀ p : CalculatePopoverLayoutParams,
      (calculatePopoverLayout p).popover.width ≤ p.preferredWidth ∧
      (calculatePopoverLayout p).popover.height ≤ p.preferredHeight) ∧
    (∀ (q : CalculatePopoverLayoutForArrowDirectionParams) (d : PopoverArrowDirection)
      (l : PopoverLayout), permutationOfDirection q d = Option.some l →
      l.popover.width ≤ q.preferredWidth ∧ l.popover.height ≤ q.preferredHeight) ∧
    (∀ q : CalculatePopoverLayoutForArrowDirectionParams,
      (calculatePopoverLayoutForArrowDirectionNone q).popover.width ≤ q.preferredWidth ∧
      (calculatePopoverLayoutForArrowDirectionNone q).popover.height ≤ q.preferredHeight) := by
  refine ⟨?_, candidate_size_bound, ?_⟩
  · intro p
    obtain ⟨d, l, hd, hres⟩ := calculatePopoverLayout_is_candidate p
    rw [hres]
    exact candidate_size_bound (mkDirectionParams p) d l hd
  · intro q
    exact ⟨min_le_right _ _, min_le_right _ _⟩

/-- C2 witness: the size bound evaluated on the spec §8 scenario and its
"down" candidate. -/
theorem spec_c2_size_bound_witness :
    (calculatePopoverLayout exampleScenario).popover.width ≤
      exampleScenario.preferredWidth ∧
    permutationOfDirection (mkDirectionParams exampleScenario) PopoverArrowDirection.down =
      Option.some exampleDownLayout ∧
    exampleDownLayout.popover.height ≤
      (mkDirectionParams exampleScenario).preferredHeight :=
  ⟨(spec_c2_size_bound.1 exampleScenario).1, eval_perm_example_down,
   (spec_c2_size_bound.2.1 (mkDirectionParams exampleScenario)
     PopoverArrowDirection.down exampleDownLayout eval_perm_example_down).2⟩

/-- C5: evaluation at the failing input.  The source rect (110, 0, 50, 10)
lies entirely beyond the right safe edge (100) of the zero-inset 100×100
viewport, yet the clipped rect is (100, 0, 40, 10): its width is not zero
and its right edge (140) exits the safe region, contradicting the claimed
"clipped rectangle is always a sub-rectangle of the safe region" and the
zero-size collapse for fully-offscreen sources. -/
theorem spec_c5_clipper_far_edge :
    sourceRectClipped offscreenSourceScenario =
      { x := 100, y := 0, width := 40, height := 10 } ∧
    offscreenSourceScenario.backdropWidth -
        offscreenSourceScenario.safeAreaEdgeInsets.right ≤
      offscreenSourceScenario.sourceRect.x ∧
    offscreenSourceScenario.backdropWidth -
        offscreenSourceScenario.safeAreaEdgeInsets.right <
      (sourceRectClipped offscreenSourceScenario).x +
        (sourceRectClipped offscreenSourceScenario).width ∧
    0 < (sourceRectClipped offscreenSourceScenario).width := by
  norm_num [sourceRectClipped, sourcePointClipped, offscreenSourceScenario, min_def, max_def]

/-- C9: the spec §8 concrete scenario evaluates exactly as the spec
predicts: clipped source unchanged, "down" layout with arrow at
(185, 85) and popover at (50, 10) sized 300×75. -/
theorem spec_c9_concrete_scenario :
    sourceRectClipped exampleScenario = exampleScenario.sourceRect ∧
    (calculatePopoverLayout exampleScenario).arrow.direction = ArrowDirection.down ∧
    (calculatePopoverLayout exampleScenario).arrow.x = 185 ∧
    (calculatePopoverLayout exampleScenario).arrow.y = 85 ∧
    (calculatePopoverLayout exampleScenario).popover.x = 50 ∧
    (calculatePopoverLayout exampleScenario).popover.y = 10 ∧
    (calculatePopoverLayout exampleScenario).popover.width = 300 ∧
    (calculatePopoverLayout exampleScenario).popover.height = 75 := by
  rw [eval_calculate_example]
  refine ⟨?_, by simp [exampleDownLayout]⟩
  norm_num [sourceRectClipped, sourcePointClipped, exampleScenario, min_def, max_def]

/-- C3: the first permitted direction whose candidate matches the preferred
size on both axes is returned, whatever comes later in the list. -/
theorem spec_c3_short_circuit (p : CalculatePopoverLayoutParams)
    (ds₁ ds₂ : List PopoverArrowDirection) (d : PopoverArrowDirection) (l : PopoverLayout)
    (hperm : p.permittedArrowDirections = ds₁ ++ d :: ds₂)
    (hbefore : ∀ d' ∈ ds₁, ∀ l',
      permutationOfDirection (mkDirectionParams p) d' = Option.some l' →
      ¬(l'.popover.height = p.preferredHeight ∧ l'.popover.width = p.preferredWidth))
    (hd : permutationOfDirection (mkDirectionParams p) d = Option.some l)
    (hh : l.popover.height = p.preferredHeight)
    (hw : l.popover.width = p.preferredWidth) :
    calculatePopoverLayout p = l := by
  apply calculatePopoverLayout_inl
  rw [hperm]
  exact gatherLayouts_perfect_first _ _ _ ds₁ d ds₂ l hbefore hd hh hw

/-- C3 witness: in `perfectFitScenario` the "down" candidate (first in the
permitted list `[down, up]`) fits perfectly and is returned. -/
theorem spec_c3_short_circuit_witness :
    perfectFitDownLayout.popover.height = perfectFitScenario.preferredHeight ∧
    perfectFitDownLayout.popover.width = perfectFitScenario.preferredWidth ∧
    calculatePopoverLayout perfectFitScenario = perfectFitDownLayout :=
  ⟨rfl, rfl,
   spec_c3_short_circuit perfectFitScenario [] [PopoverArrowDirection.up]
     PopoverArrowDirection.down perfectFitDownLayout rfl
     (by intro d' hd'; simp at hd') eval_perm_perfectFit_down rfl rfl⟩

/-- C4: with no perfect fit and a non-empty permitted-candidate pool, the
result is in the pool, has maximal area there, and every pool element
strictly before it has strictly smaller area (the stable tie-break keeps
the earlier permitted direction). -/
theorem spec_c4_largest_area (p : CalculatePopoverLayoutParams)
    (pool : List PopoverLayout)
    (hg : gatherLayouts (permutationOfDirection (mkDirectionParams p))
      p.preferredWidth p.preferredHeight p.permittedArrowDirections = Sum.inr pool)
    (hne : pool ≠ []) :
    calculatePopoverLayout p ∈ pool ∧
    (∀ l ∈ pool, popoverArea l ≤ popoverArea (calculatePopoverLayout p)) ∧
    ∃ pre post, pool = pre ++ calculatePopoverLayout p :: post ∧
      ∀ l ∈ pre, popoverArea l < popoverArea (calculatePopoverLayout p) := by
  obtain ⟨r, rest, hs⟩ : ∃ r rest, sortLayouts pool = r :: rest := by
    cases hsort : sortLayouts pool with
    | nil => exact absurd (sortLayouts_eq_nil pool hsort) hne
    | cons r rest => exact ⟨r, rest, rfl⟩
  have hres : calculatePopoverLayout p = r := by
    rw [calculatePopoverLayout_inr p pool hg]
    exact selectFromPool_cons _ pool r rest hs
  obtain ⟨hmax, pre, post, hsplit, hpre⟩ := sortLayouts_head_spec pool r rest hs
  rw [hres]
  exact ⟨by rw [hsplit]; simp, hmax, pre, post, hsplit, hpre⟩

/-- C4 witness: in the spec §8 scenario the pool is the single "down"
candidate and it is returned. -/
theorem spec_c4_largest_area_witness :
    gatherLayouts (permutationOfDirection (mkDirectionParams exampleScenario))
      exampleScenario.preferredWidth exampleScenario.preferredHeight
      exampleScenario.permittedArrowDirections = Sum.inr [exampleDownLayout] ∧
    calculatePopoverLayout exampleScenario ∈ [exampleDownLayout] :=
  ⟨eval_gather_example,
   (spec_c4_largest_area exampleScenario [exampleDownLayout] eval_gather_example
     (by simp)).1⟩

/-- C6 counterexample: on the 0×0 viewport with zero insets, positive
preferred size 100×100 and non-negative arrow dimensions (breadth 0,
length 5), the returned "up" layout has popover height −5 < 0. -/
theorem spec_c6_counterexample :
    zeroViewportScenario.backdropWidth = 0 ∧
    zeroViewportScenario.backdropHeight = 0 ∧
    0 < zeroViewportScenario.preferredWidth ∧
    0 < zeroViewportScenario.preferredHeight ∧
    0 ≤ zeroViewportScenario.arrowBreadth ∧
    0 ≤ zeroViewportScenario.arrowLength ∧
    (calculatePopoverLayout zeroViewportScenario).popover.height < 0 := by
  refine ⟨rfl, rfl, by norm_num [zeroViewportScenario], by norm_num [zeroViewportScenario],
    by norm_num [zeroViewportScenario], by norm_num [zeroViewportScenario], ?_⟩
  norm_num [calculatePopoverLayout, zeroViewportScenario, mkDirectionParams,
    sourcePointClipped, sourceRectClipped, sourceRectClippedMidpoint, gatherLayouts,
    permutationOfDirection, calculatePopoverLayoutForArrowDirectionDown,
    calculatePopoverLayoutForArrowDirectionUp, calculatePopoverLayoutForArrowDirectionLeft,
    calculatePopoverLayoutForArrowDirectionRight, calculatePopoverLayoutForArrowDirectionNone,
    sortLayouts, insertLayoutByArea, sortLayoutsByArea, allDirections, selectFromPool,
    min_def, max_def]

/-- C6 (amended): on a 0×0 viewport with all insets 0, zero arrow
dimensions and positive preferred size, `calculatePopoverLayout` returns a
layout in which the popover and arrow rectangles all have non-negative
width and height. -/
theorem spec_c6_degenerate_viewport (p : CalculatePopoverLayoutParams)
    (hW : p.backdropWidth = 0) (hH : p.backdropHeight = 0)
    (hil : p.safeAreaEdgeInsets.left = 0) (hir : p.safeAreaEdgeInsets.right = 0)
    (hit : p.safeAreaEdgeInsets.top = 0) (hib : p.safeAreaEdgeInsets.bottom = 0)
    (hB : p.arrowBreadth = 0) (hL : p.arrowLength = 0)
    (hpw : 0 < p.preferredWidth) (hph : 0 < p.preferredHeight) :
    0 ≤ (calculatePopoverLayout p).popover.width ∧
    0 ≤ (calculatePopoverLayout p).popover.height ∧
    0 ≤ (calculatePopoverLayout p).arrow.width ∧
    0 ≤ (calculatePopoverLayout p).arrow.height := by
  obtain ⟨d, l, hd, hres⟩ := calculatePopoverLayout_is_candidate p
  rw [hres]
  have h4 := degenerate_candidate_sizes (mkDirectionParams p) hW hH hil hir hit hib hB hL
    (le_of_lt hpw) (le_of_lt hph) d l hd
  exact ⟨le_of_eq h4.1.symm, le_of_eq h4.2.1.symm,
    le_of_eq h4.2.2.1.symm, le_of_eq h4.2.2.2.symm⟩

/-- C6 witness: instantiation at the all-zero degenerate scenario. -/
theorem spec_c6_degenerate_viewport_witness :
    (0 : ℚ) < zeroArrowZeroViewportScenario.preferredWidth ∧
    0 ≤ (calculatePopoverLayout zeroArrowZeroViewportScenario).popover.width ∧
    0 ≤ (calculatePopoverLayout zeroArrowZeroViewportScenario).popover.height := by
  have h := spec_c6_degenerate_viewport zeroArrowZeroViewportScenario rfl rfl rfl rfl rfl rfl
    rfl rfl (by norm_num [zeroArrowZeroViewportScenario])
    (by norm_num [zeroArrowZeroViewportScenario])
  exact ⟨by norm_num [zeroArrowZeroViewportScenario], h.1, h.2.1⟩

/-- C7: with an empty permitted-direction list the result is still a
well-defined layout: one of the four directional candidates (so never the
no-arrow layout), of maximal popover area among all four. -/
theorem spec_c7_empty_permitted (p : CalculatePopoverLayoutParams)
    (hp : p.permittedArrowDirections = []) :
    calculatePopoverLayout p ∈
      allDirections.filterMap (permutationOfDirection (mkDirectionParams p)) ∧
    ∀ l ∈ allDirections.filterMap (permutationOfDirection (mkDirectionParams p)),
      popoverArea l ≤ popoverArea (calculatePopoverLayout p) := by
  have hg : gatherLayouts (permutationOfDirection (mkDirectionParams p))
      p.preferredWidth p.preferredHeight p.permittedArrowDirections = Sum.inr [] := by
    rw [hp]; rfl
  obtain ⟨r, rest, hs2⟩ : ∃ r rest, sortLayouts (allDirections.filterMap
      (permutationOfDirection (mkDirectionParams p))) = r :: rest := by
    cases hsort : sortLayouts (allDirections.filterMap
        (permutationOfDirection (mkDirectionParams p))) with
    | nil => exact absurd hsort (sortLayouts_allDirections_ne_nil _)
    | cons r rest => exact ⟨r, rest, rfl⟩
  have hres : calculatePopoverLayout p = r := by
    rw [calculatePopoverLayout_inr p [] hg]
    exact selectFromPool_nil_cons _ [] rfl r rest hs2
  obtain ⟨hmax, pre, post, hsplit, hpre⟩ := sortLayouts_head_spec _ r rest hs2
  rw [hres]
  exact ⟨by rw [hsplit]; simp, hmax⟩

/-- C7 witness: instantiation at the spec §8 scenario with its permitted
list emptied. -/
theorem spec_c7_empty_permitted_witness :
    emptyPermittedScenario.permittedArrowDirections = [] ∧
    calculatePopoverLayout emptyPermittedScenario ∈
      allDirections.filterMap (permutationOfDirection (mkDirectionParams
        emptyPermittedScenario)) :=
  ⟨rfl, (spec_c7_empty_permitted emptyPermittedScenario rfl).1⟩

/-- C8: in each directional layout, a corner adjacent to the arrow edge
has radius 0 whenever the arrow anchor's coordinate on that axis is within
`cornerWidth` of that corner's coordinate, and the two corners opposite
the arrow edge always carry the configured border radius. -/
theorem spec_c8_corner_suppression (q : CalculatePopoverLayoutForArrowDirectionParams) :
    (∀ l, calculatePopoverLayoutForArrowDirectionDown q = Option.some l →
      (|l.arrow.x - l.popover.x| ≤ q.cornerWidth →
        l.popover.borderRadii.borderBottomLeftRadius = 0) ∧
      (|l.arrow.x - (l.popover.x + l.popover.width)| ≤ q.cornerWidth →
        l.popover.borderRadii.borderBottomRightRadius = 0) ∧
      l.popover.borderRadii.borderTopLeftRadius = q.borderRadius ∧
      l.popover.borderRadii.borderTopRightRadius = q.borderRadius) ∧
    (∀ l, calculatePopoverLayoutForArrowDirectionUp q = Option.some l →
      (|l.arrow.x - l.popover.x| ≤ q.cornerWidth →
        l.popover.borderRadii.borderTopLeftRadius = 0) ∧
      (|l.arrow.x - (l.popover.x + l.popover.width)| ≤ q.cornerWidth →
        l.popover.borderRadii.borderTopRightRadius = 0) ∧
      l.popover.borderRadii.borderBottomLeftRadius = q.borderRadius ∧
      l.popover.borderRadii.borderBottomRightRadius = q.borderRadius) ∧
    (∀ l, calculatePopoverLayoutForArrowDirectionLeft q = Option.some l →
      (|l.arrow.y - l.popover.y| ≤ q.cornerWidth →
        l.popover.borderRadii.borderTopLeftRadius = 0) ∧
      (|l.arrow.y - (l.popover.y + l.popover.height)| ≤ q.cornerWidth →
        l.popover.borderRadii.borderBottomLeftRadius = 0) ∧
      l.popover.borderRadii.borderTopRightRadius = q.borderRadius ∧
      l.popover.borderRadii.borderBottomRightRadius = q.borderRadius) ∧
    (∀ l, calculatePopoverLayoutForArrowDirectionRight q = Option.some l →
      (|l.arrow.y - l.popover.y| ≤ q.cornerWidth →
        l.popover.borderRadii.borderTopRightRadius = 0) ∧
      (|l.arrow.y - (l.popover.y + l.popover.height)| ≤ q.cornerWidth →
        l.popover.borderRadii.borderBottomRightRadius = 0) ∧
      l.popover.borderRadii.borderTopLeftRadius = q.borderRadius ∧
      l.popover.borderRadii.borderBottomLeftRadius = q.borderRadius) := by
  refine ⟨?_, ?_, ?_, ?_⟩ <;>
    · intro l hl
      simp only [calculatePopoverLayoutForArrowDirectionDown,
        calculatePopoverLayoutForArrowDirectionUp,
        calculatePopoverLayoutForArrowDirectionLeft,
        calculatePopoverLayoutForArrowDirectionRight, Option.some.injEq] at hl
      subst hl
      dsimp only
      refine ⟨fun habs => ?_, fun habs => ?_, rfl, rfl⟩
      · have h2 := (abs_le.mp habs).2
        rw [if_pos (by linarith)]
      · have h1 := (abs_le.mp habs).1
        rw [if_pos (by linarith)]

/-- C8 witness: the huge-corner-width scenario puts the arrow anchor
within corner width of both arrow-adjacent corners of the "down" layout,
whose bottom radii are 0 while its top radii keep the border radius. -/
theorem spec_c8_corner_suppression_witness :
    calculatePopoverLayoutForArrowDirectionDown cornerScenario =
      Option.some cornerDownLayout ∧
    |cornerDownLayout.arrow.x - cornerDownLayout.popover.x| ≤ cornerScenario.cornerWidth ∧
    cornerDownLayout.popover.borderRadii.borderBottomLeftRadius = 0 ∧
    cornerDownLayout.popover.borderRadii.borderBottomRightRadius = 0 ∧
    cornerDownLayout.popover.borderRadii.borderTopLeftRadius =
      cornerScenario.borderRadius := by
  have heval : calculatePopoverLayoutForArrowDirectionDown cornerScenario =
      Option.some cornerDownLayout := by
    norm_num [calculatePopoverLayoutForArrowDirectionDown, cornerScenario, cornerDownLayout,
      min_def, max_def]
  have habs : |cornerDownLayout.arrow.x - cornerDownLayout.popover.x| ≤
      cornerScenario.cornerWidth := by
    norm_num [cornerDownLayout, cornerScenario]
  have h := (spec_c8_corner_suppression cornerScenario).1 cornerDownLayout heval
  refine ⟨heval, habs, h.1 habs, h.2.1 ?_, h.2.2.2⟩
  norm_num [cornerDownLayout, cornerScenario]

/-- C10: the returned arrow direction is never `none` (each of the four
directional calculators returns a candidate for every input, so the
no-arrow fallback is unreachable from the selector). -/
theorem spec_c10_never_none (p : CalculatePopoverLayoutParams) :
    (calculatePopoverLayout p).arrow.direction ≠ ArrowDirection.none ∧
    ∀ d, ∃ l, permutationOfDirection (mkDirectionParams p) d = Option.some l := by
  refine ⟨?_, permutation_isSome (mkDirectionParams p)⟩
  obtain ⟨d, l, hd, hres⟩ := calculatePopoverLayout_is_candidate p
  rw [hres, candidate_direction _ _ _ hd]
  cases d <;> simp [outputDirection]

/-- C10 witness: instantiation at the spec §8 scenario. -/
theorem spec_c10_never_none_witness :
    (calculatePopoverLayout exampleScenario).arrow.direction ≠ ArrowDirection.none :=
  (spec_c10_never_none exampleScenario).1

end SafePopover
